import Mathlib

/-!
Verification of the Testing Playground repository: shallow Lean embeddings of
the React page components (Advanced, Api, Dynamic, Tables), the Cypress
page-object classes (BasePage, LoginPage, DashboardPage), the advanced test
spec, and the Cypress configuration, together with theorems settling the
specification claims.
-/

/-! ### Dynamic page (src/pages/Dynamic.tsx) -/

/-- State of the Dynamic page relevant to content loading and the progress
bar: `isLoading` and `loadedContent` are the two useState hooks touched by
`handleLoadContent`; `progress` is the hook touched by `startProgress`. -/
structure DynamicState where
  isLoading : Bool
  loadedContent : String
  progress : Nat
deriving DecidableEq, Repr

/-- Effects a Dynamic-page handler performs (mirrors the statements of the
handler bodies; there is no network request or exception in the source). -/
inductive DynEffect where
  | setLoadingFlag (b : Bool)
  | setContentText (s : String)
  | scheduleTimeout (ms : Nat)
  | networkRequest
  | throwException
deriving DecidableEq, Repr

/-- The fixed delay of the `setTimeout` in `handleLoadContent` (2000 in the
source, independent of any input: the handler takes no parameters). -/
def loadContentDelayMs : Nat := 2000

/-- Synchronous part of `handleLoadContent`: `setIsLoading(true)` and
`setLoadedContent("")`. -/
def handleLoadContentStart (s : DynamicState) : DynamicState :=
  { s with isLoading := true, loadedContent := "" }

/-- Effect trace of the synchronous part of `handleLoadContent`. -/
def handleLoadContentEffects : List DynEffect :=
  [DynEffect.setLoadingFlag true, DynEffect.setContentText "",
   DynEffect.scheduleTimeout loadContentDelayMs]

/-- The `setTimeout` callback of `handleLoadContent`:
`setLoadedContent("Content loaded successfully!")` and
`setIsLoading(false)`. -/
def handleLoadContentTimeout (s : DynamicState) : DynamicState :=
  { s with loadedContent := "Content loaded successfully!", isLoading := false }

/-- The interval period of `startProgress` (500 in the source). -/
def progressIntervalMs : Nat := 500

/-- The `setProgress` updater run on each `startProgress` interval tick:
`prev >= 100` clears the interval and returns 100, otherwise `prev + 10`. -/
def progressTick (prev : Nat) : Nat :=
  if prev ≥ 100 then 100 else prev + 10

/-- Progress value after `n` interval ticks following `startProgress`, which
first resets the value with `setProgress(0)`. -/
def progressAfter : Nat → Nat
  | 0 => 0
  | n + 1 => progressTick (progressAfter n)

/-! ### Api page (src/pages/Api.tsx) -/

/-- The `data` object built in the success branch of `mockApiCall`
(`id`, `message`, `timestamp`). -/
structure ApiData where
  id : Nat
  message : String
  timestamp : String
deriving DecidableEq, Repr

/-- The `ApiResponse` type of Api.tsx; the optional fields model the JS
object literals, which carry `data` only on success and `error` only on
failure. -/
structure ApiResponse where
  success : Bool
  data : Option ApiData
  error : Option String
deriving DecidableEq, Repr

/-- useState hooks of the Api page: `response` and `isLoading`. -/
structure ApiState where
  response : Option ApiResponse
  isLoading : Bool
deriving DecidableEq, Repr

/-- Effects performed by `mockApiCall` (mirrors the handler body; there is no
network request or thrown exception in the source). -/
inductive ApiEffect where
  | setLoadingFlag (b : Bool)
  | clearResponse
  | scheduleTimeout (ms : Nat)
  | networkRequest
  | throwException
deriving DecidableEq, Repr

/-- Default value of the `delay` parameter of `mockApiCall` (1000). -/
def mockApiCallDefaultDelay : Nat := 1000

/-- Synchronous part of `mockApiCall`: `setIsLoading(true)` and
`setResponse(null)`. -/
def mockApiCallStart (_s : ApiState) : ApiState :=
  { response := none, isLoading := true }

/-- Effect trace of the synchronous part of `mockApiCall shouldSucceed delay`:
set the loading flag, clear the response, schedule the timer. -/
def mockApiCallEffects (_shouldSucceed : Bool) (delay : Nat) : List ApiEffect :=
  [ApiEffect.setLoadingFlag true, ApiEffect.clearResponse,
   ApiEffect.scheduleTimeout delay]

/-- The `setTimeout` callback of `mockApiCall`: on success stores a response
with `success: true` and a data object (`idv` models `Math.floor(Math.random()
* 1000)`, `ts` models `new Date().toISOString()`); on failure stores
`success: false` with the fixed error string; both branches then run
`setIsLoading(false)`. -/
def mockApiCallTimeout (shouldSucceed : Bool) (idv : Nat) (ts : String)
    (s : ApiState) : ApiState :=
  if shouldSucceed then
    { s with
      response := some { success := true,
                         data := some { id := idv, message := "API call successful!",
                                        timestamp := ts },
                         error := none },
      isLoading := false }
  else
    { s with
      response := some { success := false, data := none,
                         error := some "API call failed. Please try again." },
      isLoading := false }

/-! ### Advanced page (src/pages/Advanced.tsx) -/

/-- The fields of an uploaded `File` the component reads (`name`, `size`). -/
structure UploadFile where
  name : String
  size : Nat
deriving DecidableEq, Repr

/-- State of the Advanced page: the three useState hooks (`dragOver`,
`uploadedFile`, `keyPressed`), plus the DOM value of the uncontrolled
`storage-value` input, the `testValue` entry of `localStorage` (`none` models
an absent key) and the last toast message. -/
structure AdvancedState where
  dragOver : Bool
  uploadedFile : Option UploadFile
  keyPressed : String
  storageInput : String
  testValueStorage : Option String
  toast : String
deriving DecidableEq, Repr

/-- User events handled by the Advanced page, one per handler / onClick in
the source. -/
inductive AdvancedEvent where
  | dragOverEvt
  | dragLeaveEvt
  | dropEvt (files : List UploadFile)
  | fileChangeEvt (files : List UploadFile)
  | keyDownEvt (key code : String)
  | downloadEvt
  | typeStorageInput (v : String)
  | clickSaveStorage
  | clickLoadStorage
  | clickClearStorage
deriving DecidableEq, Repr

/-- Event step function of the Advanced page, translated handler by handler
from the source.  `clickSaveStorage` runs
`localStorage.setItem("testValue", input.value)`; `clickLoadStorage` runs
`localStorage.getItem("testValue")` and, on a truthy value (non-null and
non-empty), copies it into the input, otherwise toasts
"No value found in localStorage"; `clickClearStorage` removes the key and
empties the input. -/
def advancedStep (s : AdvancedState) (e : AdvancedEvent) : AdvancedState :=
  match e with
  | AdvancedEvent.dragOverEvt => { s with dragOver := true }
  | AdvancedEvent.dragLeaveEvt => { s with dragOver := false }
  | AdvancedEvent.dropEvt files =>
    match files with
    | [] => { s with dragOver := false }
    | f :: _ =>
      { s with dragOver := false, uploadedFile := some f,
               toast := "File uploaded: " ++ f.name }
  | AdvancedEvent.fileChangeEvt files =>
    match files with
    | [] => s
    | f :: _ =>
      { s with uploadedFile := some f, toast := "File selected: " ++ f.name }
  | AdvancedEvent.keyDownEvt key code =>
    { s with keyPressed := key ++ " (" ++ code ++ ")",
             toast := "Key pressed: " ++ key }
  | AdvancedEvent.downloadEvt => { s with toast := "File downloaded!" }
  | AdvancedEvent.typeStorageInput v => { s with storageInput := v }
  | AdvancedEvent.clickSaveStorage =>
    { s with testValueStorage := some s.storageInput,
             toast := "Value saved to localStorage" }
  | AdvancedEvent.clickLoadStorage =>
    match s.testValueStorage with
    | some v =>
      if v = "" then { s with toast := "No value found in localStorage" }
      else { s with storageInput := v, toast := "Value loaded from localStorage" }
    | none => { s with toast := "No value found in localStorage" }
  | AdvancedEvent.clickClearStorage =>
    { s with testValueStorage := none, storageInput := "",
             toast := "Storage cleared" }

/-- A concrete Advanced-page state whose storage input holds "hello". -/
def advancedDemoState : AdvancedState :=
  { dragOver := false, uploadedFile := none, keyPressed := "",
    storageInput := "hello", testValueStorage := none, toast := "" }

/-- A concrete Advanced-page state whose storage input is empty. -/
def advancedEmptyState : AdvancedState :=
  { dragOver := false, uploadedFile := none, keyPressed := "",
    storageInput := "", testValueStorage := none, toast := "" }

/-! ### Tables page (src/pages/Tables.tsx) -/

/-- The `User` row type of Tables.tsx (`status` is the literal string
"active" or "inactive"). -/
structure TUser where
  id : Nat
  name : String
  email : String
  role : String
  status : String
deriving DecidableEq, Repr

/-- The `initialUsers` constant of Tables.tsx. -/
def initialUsers : List TUser :=
  [ { id := 1, name := "Alice Johnson", email := "alice@example.com",
      role := "Admin", status := "active" },
    { id := 2, name := "Bob Smith", email := "bob@example.com",
      role := "User", status := "active" },
    { id := 3, name := "Charlie Brown", email := "charlie@example.com",
      role := "Editor", status := "inactive" },
    { id := 4, name := "Diana Prince", email := "diana@example.com",
      role := "Admin", status := "active" },
    { id := 5, name := "Eve Wilson", email := "eve@example.com",
      role := "User", status := "active" } ]

/-- Boolean test that `needle` begins `hay` (character lists). -/
def startsWithL : List Char → List Char → Bool
  | [], _ => true
  | _ :: _, [] => false
  | a :: n, b :: h => a == b && startsWithL n h

/-- Boolean substring test on character lists: JS `String.prototype.includes`
checks whether `needle` occurs contiguously inside `hay`. -/
def containsL : List Char → List Char → Bool
  | [], n => startsWithL n []
  | b :: t, n => startsWithL n (b :: t) || containsL t n

/-- JS `hay.includes(needle)` on strings. -/
def strContains (hay needle : String) : Bool :=
  containsL hay.toList needle.toList

/-- Mathematical substring relation: `needle` occurs contiguously in `hay`. -/
def IsSubstr (needle hay : String) : Prop :=
  ∃ p q, hay.toList = p ++ needle.toList ++ q

/-- The filter predicate of `filteredUsers` in Tables.tsx:
`user.name.toLowerCase().includes(searchTerm.toLowerCase()) ||
 user.email.toLowerCase().includes(searchTerm.toLowerCase())`. -/
def matchesSearch (searchTerm : String) (u : TUser) : Bool :=
  strContains u.name.toLower searchTerm.toLower ||
    strContains u.email.toLower searchTerm.toLower

/-- The sortable columns of the table (`sortBy` hook values). -/
inductive SortKey where
  | id | name | email | role | status
deriving DecidableEq, Repr

/-- Sort direction (`sortOrder` hook values "asc" / "desc"). -/
inductive SortOrder where
  | asc | desc
deriving DecidableEq, Repr

/-- JS `aVal > bVal` for the selected column (numeric for `id`,
lexicographic string comparison otherwise). -/
def keyGT (k : SortKey) (a b : TUser) : Bool :=
  match k with
  | SortKey.id => decide (b.id < a.id)
  | SortKey.name => decide (b.name < a.name)
  | SortKey.email => decide (b.email < a.email)
  | SortKey.role => decide (b.role < a.role)
  | SortKey.status => decide (b.status < a.status)

/-- The comparator passed to `.sort` in Tables.tsx: `0` when no column is
selected, otherwise `modifier` when `aVal > bVal` and `-modifier` when not,
with `modifier` `1` for ascending and `-1` for descending. -/
def jsCompare (sortBy : Option SortKey) (sortOrder : SortOrder)
    (a b : TUser) : Int :=
  match sortBy with
  | none => 0
  | some k =>
    let modifier : Int := if sortOrder = SortOrder.asc then 1 else -1
    if keyGT k a b then modifier else -modifier

/-- The displayed `filteredUsers` value: `users` filtered by the search
predicate and then sorted with the JS comparator (the sort is modelled by an
insertion sort, a permutation — the comparator is not a consistent ordering,
so ECMAScript leaves the resulting order implementation-defined, but any
implementation produces a permutation of the filtered list). -/
def filteredUsers (searchTerm : String) (users : List TUser)
    (sortBy : Option SortKey) (sortOrder : SortOrder) : List TUser :=
  List.insertionSort (fun a b => jsCompare sortBy sortOrder a b ≤ 0)
    (users.filter (matchesSearch searchTerm))

/-! ### Cypress configuration (cypress.config.ts) -/

/-- The `e2e` block of `defineConfig` in cypress.config.ts. -/
structure E2EConfig where
  baseUrl : String
  supportFile : Bool
  specPattern : String
  video : Bool
  screenshotOnRunFailure : Bool
  viewportWidth : Nat
  viewportHeight : Nat
  defaultCommandTimeout : Nat
  requestTimeout : Nat
  responseTimeout : Nat
deriving DecidableEq, Repr

/-- The configuration object exported by cypress.config.ts. -/
def cypressConfig : E2EConfig :=
  { baseUrl := "http://localhost:8080"
    supportFile := false
    specPattern := "cypress/e2e/**/*.cy.\x7bjs,jsx,ts,tsx\x7d"
    video := false
    screenshotOnRunFailure := true
    viewportWidth := 1280
    viewportHeight := 720
    defaultCommandTimeout := 10000
    requestTimeout := 10000
    responseTimeout := 10000 }

/-! ### Page-object classes (cypress/pages) -/

/-- What a page-object method returns: the instance (`return this`) or a
Cypress chainable handle. -/
inductive Ret where
  | self | handle
deriving DecidableEq, Repr

/-- A page-object method, recorded from its source body: `isGetter` marks a
`get`-syntax element accessor; `acts` marks a body that performs a UI
operation (visit/click/type/select/check/scroll/trigger/wait/storage or
viewport mutation); `asserts` marks a body containing a `should`/assertion;
`ret` records what the method returns. -/
structure PMethod where
  name : String
  isGetter : Bool
  acts : Bool
  asserts : Bool
  ret : Ret
deriving DecidableEq, Repr

/-- The methods of BasePage (cypress/pages/BasePage.ts), one entry per
method in source order. -/
def basePageMethods : List PMethod :=
  [ ⟨"visit", false, true, false, Ret.self⟩,
    ⟨"getUrl", false, false, false, Ret.handle⟩,
    ⟨"verifyUrl", false, false, true, Ret.self⟩,
    ⟨"verifyExactUrl", false, false, true, Ret.self⟩,
    ⟨"goBack", false, true, false, Ret.self⟩,
    ⟨"goForward", false, true, false, Ret.self⟩,
    ⟨"reload", false, true, false, Ret.self⟩,
    ⟨"clickElement", false, true, false, Ret.self⟩,
    ⟨"clickElementForce", false, true, false, Ret.self⟩,
    ⟨"doubleClickElement", false, true, false, Ret.self⟩,
    ⟨"rightClickElement", false, true, false, Ret.self⟩,
    ⟨"typeText", false, true, false, Ret.self⟩,
    ⟨"appendText", false, true, false, Ret.self⟩,
    ⟨"clearText", false, true, false, Ret.self⟩,
    ⟨"selectDropdownByValue", false, true, false, Ret.self⟩,
    ⟨"selectDropdownByText", false, true, false, Ret.self⟩,
    ⟨"checkCheckbox", false, true, false, Ret.self⟩,
    ⟨"uncheckCheckbox", false, true, false, Ret.self⟩,
    ⟨"toggleCheckbox", false, true, false, Ret.self⟩,
    ⟨"uploadFile", false, true, false, Ret.self⟩,
    ⟨"verifyElementVisible", false, false, true, Ret.self⟩,
    ⟨"verifyElementNotVisible", false, false, true, Ret.self⟩,
    ⟨"verifyElementExists", false, false, true, Ret.self⟩,
    ⟨"verifyElementNotExist", false, false, true, Ret.self⟩,
    ⟨"verifyElementContainsText", false, false, true, Ret.self⟩,
    ⟨"verifyElementHasText", false, false, true, Ret.self⟩,
    ⟨"verifyElementValue", false, false, true, Ret.self⟩,
    ⟨"verifyElementEnabled", false, false, true, Ret.self⟩,
    ⟨"verifyElementDisabled", false, false, true, Ret.self⟩,
    ⟨"verifyElementChecked", false, false, true, Ret.self⟩,
    ⟨"verifyElementNotChecked", false, false, true, Ret.self⟩,
    ⟨"verifyElementAttribute", false, false, true, Ret.self⟩,
    ⟨"verifyElementHasClass", false, false, true, Ret.self⟩,
    ⟨"verifyTitle", false, false, true, Ret.self⟩,
    ⟨"verifyTitleContains", false, false, true, Ret.self⟩,
    ⟨"waitForElement", false, false, true, Ret.self⟩,
    ⟨"waitForElementToExist", false, false, true, Ret.self⟩,
    ⟨"waitForElementToDisappear", false, false, true, Ret.self⟩,
    ⟨"waitForLoading", false, false, true, Ret.self⟩,
    ⟨"wait", false, true, false, Ret.self⟩,
    ⟨"scrollToElement", false, true, false, Ret.self⟩,
    ⟨"scrollToTop", false, true, false, Ret.self⟩,
    ⟨"scrollToBottom", false, true, false, Ret.self⟩,
    ⟨"scrollTo", false, true, false, Ret.self⟩,
    ⟨"getElementText", false, false, false, Ret.handle⟩,
    ⟨"getElementAttribute", false, false, false, Ret.handle⟩,
    ⟨"getElementCount", false, false, false, Ret.handle⟩,
    ⟨"triggerEvent", false, true, false, Ret.self⟩,
    ⟨"hoverElement", false, true, false, Ret.self⟩,
    ⟨"focusElement", false, true, false, Ret.self⟩,
    ⟨"blurElement", false, true, false, Ret.self⟩,
    ⟨"clearLocalStorage", false, true, false, Ret.self⟩,
    ⟨"clearCookies", false, true, false, Ret.self⟩,
    ⟨"clearAllStorage", false, true, false, Ret.self⟩,
    ⟨"getLocalStorage", false, false, false, Ret.handle⟩,
    ⟨"setLocalStorage", false, true, false, Ret.self⟩,
    ⟨"getCookie", false, false, false, Ret.handle⟩,
    ⟨"setCookie", false, true, false, Ret.self⟩,
    ⟨"setViewport", false, true, false, Ret.self⟩,
    ⟨"setMobileViewport", false, true, false, Ret.self⟩,
    ⟨"setTabletViewport", false, true, false, Ret.self⟩,
    ⟨"setDesktopViewport", false, true, false, Ret.self⟩ ]

/-- The members of LoginPage (cypress/pages/LoginPage.ts), one entry per
getter and method in source order. -/
def loginPageMethods : List PMethod :=
  [ ⟨"usernameInput", true, false, false, Ret.handle⟩,
    ⟨"passwordInput", true, false, false, Ret.handle⟩,
    ⟨"loginButton", true, false, false, Ret.handle⟩,
    ⟨"errorMessage", true, false, false, Ret.handle⟩,
    ⟨"rememberMeCheckbox", true, false, false, Ret.handle⟩,
    ⟨"forgotPasswordLink", true, false, false, Ret.handle⟩,
    ⟨"signUpLink", true, false, false, Ret.handle⟩,
    ⟨"pageHeading", true, false, false, Ret.handle⟩,
    ⟨"successMessage", true, false, false, Ret.handle⟩,
    ⟨"visitLoginPage", false, true, false, Ret.self⟩,
    ⟨"goToForgotPassword", false, true, false, Ret.self⟩,
    ⟨"goToSignUp", false, true, false, Ret.self⟩,
    ⟨"enterUsername", false, true, false, Ret.self⟩,
    ⟨"enterPassword", false, true, false, Ret.self⟩,
    ⟨"clearUsername", false, true, false, Ret.self⟩,
    ⟨"clearPassword", false, true, false, Ret.self⟩,
    ⟨"checkRememberMe", false, true, false, Ret.self⟩,
    ⟨"uncheckRememberMe", false, true, false, Ret.self⟩,
    ⟨"clickLoginButton", false, true, false, Ret.self⟩,
    ⟨"clickLoginButtonForce", false, true, false, Ret.self⟩,
    ⟨"login", false, true, false, Ret.self⟩,
    ⟨"loginWithRememberMe", false, true, false, Ret.self⟩,
    ⟨"loginAsValidUser", false, true, false, Ret.self⟩,
    ⟨"loginAsAdmin", false, true, false, Ret.self⟩,
    ⟨"loginWithInvalidCredentials", false, true, false, Ret.self⟩,
    ⟨"clearAllFields", false, true, false, Ret.self⟩,
    ⟨"verifyOnLoginPage", false, false, true, Ret.self⟩,
    ⟨"verifyLoginButtonEnabled", false, false, true, Ret.self⟩,
    ⟨"verifyLoginButtonDisabled", false, false, true, Ret.self⟩,
    ⟨"verifyErrorMessage", false, false, true, Ret.self⟩,
    ⟨"verifyErrorMessageExists", false, false, true, Ret.self⟩,
    ⟨"verifyNoErrorMessage", false, false, true, Ret.self⟩,
    ⟨"verifySuccessMessage", false, false, true, Ret.self⟩,
    ⟨"verifyLoginSuccessful", false, false, true, Ret.self⟩,
    ⟨"verifyUsernameValue", false, false, true, Ret.self⟩,
    ⟨"verifyPasswordValue", false, false, true, Ret.self⟩,
    ⟨"verifyRememberMeChecked", false, false, true, Ret.self⟩,
    ⟨"verifyRememberMeNotChecked", false, false, true, Ret.self⟩,
    ⟨"verifyFormElementsVisible", false, false, true, Ret.self⟩,
    ⟨"verifyLoginButtonText", false, false, true, Ret.self⟩,
    ⟨"verifyUsernamePlaceholder", false, false, true, Ret.self⟩,
    ⟨"verifyPasswordPlaceholder", false, false, true, Ret.self⟩,
    ⟨"verifyUsernameFieldFocused", false, false, true, Ret.self⟩,
    ⟨"verifyFormAccessibility", false, false, true, Ret.self⟩,
    ⟨"submitEmptyForm", false, true, false, Ret.self⟩,
    ⟨"loginWithOnlyUsername", false, true, false, Ret.self⟩,
    ⟨"loginWithOnlyPassword", false, true, false, Ret.self⟩,
    ⟨"typeUsernameSlowly", false, true, false, Ret.self⟩,
    ⟨"verifyFormValidation", false, true, true, Ret.self⟩ ]

/-- The members of DashboardPage (cypress/pages/DashboardPage.ts), one entry
per getter and method in source order. -/
def dashboardPageMethods : List PMethod :=
  [ ⟨"pageTitle", true, false, false, Ret.handle⟩,
    ⟨"welcomeMessage", true, false, false, Ret.handle⟩,
    ⟨"userProfileButton", true, false, false, Ret.handle⟩,
    ⟨"logoutButton", true, false, false, Ret.handle⟩,
    ⟨"notificationBell", true, false, false, Ret.handle⟩,
    ⟨"homeMenuItem", true, false, false, Ret.handle⟩,
    ⟨"reportsMenuItem", true, false, false, Ret.handle⟩,
    ⟨"settingsMenuItem", true, false, false, Ret.handle⟩,
    ⟨"statsWidget", true, false, false, Ret.handle⟩,
    ⟨"chartWidget", true, false, false, Ret.handle⟩,
    ⟨"recentActivityWidget", true, false, false, Ret.handle⟩,
    ⟨"searchInput", true, false, false, Ret.handle⟩,
    ⟨"filterDropdown", true, false, false, Ret.handle⟩,
    ⟨"dateRangePicker", true, false, false, Ret.handle⟩,
    ⟨"contentArea", true, false, false, Ret.handle⟩,
    ⟨"dataTable", true, false, false, Ret.handle⟩,
    ⟨"loadingSpinner", true, false, false, Ret.handle⟩,
    ⟨"visitDashboard", false, true, false, Ret.self⟩,
    ⟨"goToHome", false, true, false, Ret.self⟩,
    ⟨"goToReports", false, true, false, Ret.self⟩,
    ⟨"goToSettings", false, true, false, Ret.self⟩,
    ⟨"openUserProfile", false, true, false, Ret.self⟩,
    ⟨"openNotifications", false, true, false, Ret.self⟩,
    ⟨"logout", false, true, false, Ret.self⟩,
    ⟨"searchFor", false, true, false, Ret.self⟩,
    ⟨"clearSearch", false, true, false, Ret.self⟩,
    ⟨"selectFilter", false, true, false, Ret.self⟩,
    ⟨"setDateRange", false, true, false, Ret.self⟩,
    ⟨"clickTableRow", false, true, false, Ret.self⟩,
    ⟨"sortTableByColumn", false, true, false, Ret.self⟩,
    ⟨"getTableCellValue", false, false, false, Ret.handle⟩,
    ⟨"clickStatsWidget", false, true, false, Ret.self⟩,
    ⟨"refreshChart", false, true, false, Ret.self⟩,
    ⟨"viewAllActivities", false, true, false, Ret.self⟩,
    ⟨"verifyOnDashboard", false, false, true, Ret.self⟩,
    ⟨"verifyWelcomeMessage", false, false, true, Ret.self⟩,
    ⟨"verifyAllWidgetsLoaded", false, false, true, Ret.self⟩,
    ⟨"verifyNavigationMenuVisible", false, false, true, Ret.self⟩,
    ⟨"verifyLoadingComplete", false, false, true, Ret.self⟩,
    ⟨"verifyDataTableVisible", false, false, true, Ret.self⟩,
    ⟨"verifyTableHasData", false, false, true, Ret.self⟩,
    ⟨"verifyTableRowCount", false, false, true, Ret.self⟩,
    ⟨"verifySearchResults", false, false, true, Ret.self⟩,
    ⟨"verifyStatValue", false, false, true, Ret.self⟩,
    ⟨"verifyNotificationCount", false, false, true, Ret.self⟩,
    ⟨"verifyUserLoggedIn", false, false, true, Ret.self⟩,
    ⟨"verifyDashboardTitle", false, false, true, Ret.self⟩,
    ⟨"waitForDashboardToLoad", false, false, true, Ret.self⟩,
    ⟨"waitForTableToLoad", false, false, true, Ret.self⟩,
    ⟨"waitForSearchResults", false, false, true, Ret.self⟩ ]

/-- All members of the three page-object classes. -/
def pageObjectMethods : List PMethod :=
  basePageMethods ++ loginPageMethods ++ dashboardPageMethods

/-- The BasePage entry for `clickElement` (used as a concrete instance). -/
def clickElementMethod : PMethod :=
  ⟨"clickElement", false, true, false, Ret.self⟩

/-! ### Class declarations in the repository -/

/-- A `class` declaration: defining file, class name, and the class named in
its `extends` clause, if any. -/
structure ClassDecl where
  file : String
  cname : String
  parent : Option String
deriving DecidableEq, Repr

/-- Every `class` declaration in the repository's code files (the page
objects, the training specs, and the training examples). -/
def repoClasses : List ClassDecl :=
  [ ⟨"cypress/pages/BasePage.ts", "BasePage", none⟩,
    ⟨"cypress/pages/LoginPage.ts", "LoginPage", some "BasePage"⟩,
    ⟨"cypress/pages/DashboardPage.ts", "DashboardPage", some "BasePage"⟩,
    ⟨"cypress/e2e/training/01-basic-pom.cy.js", "BasicLoginPage", none⟩,
    ⟨"cypress/e2e/training/03-fixtures.cy.js", "LoginPage", none⟩,
    ⟨"training custom-commands example", "BasePage", none⟩,
    ⟨"training custom-commands example", "LoginPage", some "BasePage"⟩,
    ⟨"training custom-commands example", "DashboardPage", some "BasePage"⟩,
    ⟨"training advanced-pom example", "AdvancedLoginPage", none⟩ ]

/-- The page-object subclasses of the repository. -/
def pageObjectSubclasses : List String := ["LoginPage", "DashboardPage"]

/-! ### The advanced e2e spec (Advanced Testing Scenarios) -/

/-- Abstracted Cypress commands of a test, as they relate to browser local
storage: `clearLS` is `cy.clearLocalStorage()`, `lsRead` / `lsWrite` are
steps that read / write `localStorage` (directly through `cy.window()` or by
clicking the page's load / save / clear storage buttons), `visitPage` and
`uiOther` are storage-irrelevant steps. -/
inductive TCmd where
  | visitPage
  | clearLS
  | lsRead
  | lsWrite
  | uiOther
deriving DecidableEq, Repr

/-- A single `it(...)` test case: name and command sequence. -/
structure TestCase where
  tname : String
  body : List TCmd
deriving DecidableEq, Repr

/-- A `describe(...)` block: name, its own `beforeEach` commands, and its
test cases. -/
structure DescribeBlock where
  dname : String
  beforeEachCmds : List TCmd
  tests : List TestCase
deriving DecidableEq, Repr

/-- A spec file: the root `describe` name, the root `beforeEach` commands,
and the nested describe blocks. -/
structure SpecFile where
  sname : String
  beforeEachCmds : List TCmd
  blocks : List DescribeBlock
deriving DecidableEq, Repr

/-- The "Complex Workflows" test that uploads a file, saves to localStorage
via the save button, and asserts on `window.localStorage`. -/
def complexWorkflowStorageTest : TestCase :=
  { tname := "should handle file upload and localStorage together",
    body := [TCmd.uiOther, TCmd.uiOther, TCmd.lsWrite, TCmd.uiOther,
             TCmd.lsRead] }

/-- The "Edge Cases" test that saves and reloads a special-character value
through the storage buttons. -/
def specialCharactersStorageTest : TestCase :=
  { tname := "should handle special characters in storage",
    body := [TCmd.uiOther, TCmd.lsWrite, TCmd.uiOther, TCmd.lsRead,
             TCmd.uiOther] }

/-- The "Browser Storage (localStorage)" describe block, whose `beforeEach`
runs `cy.clearLocalStorage()`. -/
def browserStorageBlock : DescribeBlock :=
  { dname := "Browser Storage (localStorage)",
    beforeEachCmds := [TCmd.clearLS],
    tests :=
      [ { tname := "should save value to localStorage",
          body := [TCmd.uiOther, TCmd.uiOther, TCmd.lsWrite, TCmd.uiOther,
                   TCmd.lsRead] },
        { tname := "should load value from localStorage",
          body := [TCmd.lsWrite, TCmd.lsRead, TCmd.uiOther, TCmd.uiOther] },
        { tname := "should clear localStorage",
          body := [TCmd.uiOther, TCmd.lsWrite, TCmd.lsWrite, TCmd.uiOther,
                   TCmd.lsRead, TCmd.uiOther] },
        { tname := "should handle loading when no value exists",
          body := [TCmd.lsRead, TCmd.uiOther] },
        { tname := "should persist value across actions",
          body := [TCmd.uiOther, TCmd.lsWrite, TCmd.uiOther, TCmd.lsRead,
                   TCmd.uiOther] } ] }

/-- The spec file `Advanced Testing Scenarios`, block by block; its root
`beforeEach` only visits `/advanced`. -/
def advancedSpec : SpecFile :=
  { sname := "Advanced Testing Scenarios",
    beforeEachCmds := [TCmd.visitPage],
    blocks :=
      [ { dname := "File Upload", beforeEachCmds := [],
          tests :=
            [ { tname := "should upload file via input",
                body := [TCmd.uiOther, TCmd.uiOther, TCmd.uiOther] },
              { tname := "should handle drag and drop",
                body := [TCmd.uiOther, TCmd.uiOther] },
              { tname := "should display file size information",
                body := [TCmd.uiOther, TCmd.uiOther] },
              { tname := "should handle different file types",
                body := [TCmd.uiOther, TCmd.uiOther] },
              { tname := "should show visual feedback on drag over",
                body := [TCmd.uiOther, TCmd.uiOther] } ] },
        { dname := "File Download", beforeEachCmds := [],
          tests :=
            [ { tname := "should download file when button clicked",
                body := [TCmd.uiOther, TCmd.uiOther] },
              { tname := "should have download button visible and enabled",
                body := [TCmd.uiOther] } ] },
        { dname := "Keyboard Events", beforeEachCmds := [],
          tests :=
            [ { tname := "should capture key presses",
                body := [TCmd.uiOther, TCmd.uiOther] },
              { tname := "should handle special keys",
                body := [TCmd.uiOther, TCmd.uiOther] },
              { tname := "should handle multiple key presses",
                body := [TCmd.uiOther, TCmd.uiOther] },
              { tname := "should show toast on key press",
                body := [TCmd.uiOther, TCmd.uiOther] },
              { tname := "should handle arrow keys",
                body := [TCmd.uiOther, TCmd.uiOther] },
              { tname := "should handle modifier keys",
                body := [TCmd.uiOther, TCmd.uiOther] } ] },
        browserStorageBlock,
        { dname := "Complex Workflows", beforeEachCmds := [],
          tests :=
            [ complexWorkflowStorageTest,
              { tname := "should test keyboard input and file operations",
                body := [TCmd.uiOther, TCmd.uiOther, TCmd.uiOther,
                         TCmd.uiOther, TCmd.uiOther] } ] },
        { dname := "Edge Cases", beforeEachCmds := [],
          tests :=
            [ { tname := "should handle empty file name",
                body := [TCmd.uiOther, TCmd.uiOther] },
              specialCharactersStorageTest ] } ] }

/-- A command touches local storage if it reads or writes it. -/
def touchesLS (c : TCmd) : Bool :=
  c == TCmd.lsRead || c == TCmd.lsWrite

/-- A test touches local storage if some command of its body does. -/
def testTouchesLS (t : TestCase) : Bool :=
  t.body.any touchesLS

/-- A test inside `b` of spec `sp` is preceded by an explicit clear when
`cy.clearLocalStorage()` occurs in the root `beforeEach`, the block
`beforeEach`, or in the test body before its first storage access. -/
def precededByClear (sp : SpecFile) (b : DescribeBlock) (t : TestCase) : Bool :=
  (sp.beforeEachCmds ++ b.beforeEachCmds ++
    t.body.takeWhile (fun c => !touchesLS c)).any (· == TCmd.clearLS)

/-! ### Helper lemmas -/

/-- `startsWithL` decides "the haystack begins with the needle". -/
theorem startsWithL_iff (n : List Char) :
    ∀ h, startsWithL n h = true ↔ ∃ q, h = n ++ q := by
  induction n with
  | nil =>
    intro h
    simp [startsWithL]
  | cons a n ih =>
    intro h
    cases h with
    | nil => simp [startsWithL]
    | cons b h' =>
      simp only [startsWithL, Bool.and_eq_true, beq_iff_eq, ih,
        List.cons_append, List.cons.injEq]
      constructor
      · rintro ⟨rfl, q, rfl⟩
        exact ⟨q, rfl, rfl⟩
      · rintro ⟨q, rfl, rfl⟩
        exact ⟨rfl, q, rfl⟩

/-- `containsL` decides "the needle occurs contiguously in the haystack". -/
theorem containsL_iff (n : List Char) :
    ∀ hay, containsL hay n = true ↔ ∃ p q, hay = p ++ n ++ q := by
  intro hay
  induction hay with
  | nil =>
    simp only [containsL, startsWithL_iff]
    constructor
    · rintro ⟨q, hq⟩
      rcases List.append_eq_nil.mp hq.symm with ⟨rfl, rfl⟩
      exact ⟨[], [], rfl⟩
    · rintro ⟨p, q, hpq⟩
      rcases List.append_eq_nil.mp hpq.symm with ⟨h1, rfl⟩
      rcases List.append_eq_nil.mp h1 with ⟨rfl, rfl⟩
      exact ⟨[], rfl⟩
  | cons b t ih =>
    simp only [containsL, Bool.or_eq_true, startsWithL_iff, ih]
    constructor
    · rintro (⟨q, hq⟩ | ⟨p, q, rfl⟩)
      · exact ⟨[], q, by simpa using hq⟩
      · exact ⟨b :: p, q, rfl⟩
    · rintro ⟨p, q, hpq⟩
      cases p with
      | nil =>
        exact Or.inl ⟨q, by simpa using hpq⟩
      | cons c p' =>
        rcases List.cons.injEq .. ▸ hpq with ⟨rfl, htl⟩
        exact Or.inr ⟨p', q, htl⟩

/-- An empty needle is contained in every haystack. -/
theorem containsL_nil_needle : ∀ hay : List Char, containsL hay [] = true := by
  intro hay
  cases hay <;> simp [containsL, startsWithL]

/-- `strContains` agrees with the substring relation. -/
theorem strContains_iff (hay needle : String) :
    strContains hay needle = true ↔ IsSubstr needle hay := by
  unfold strContains IsSubstr
  exact containsL_iff needle.toList hay.toList

/-- The table's filter predicate is the lowercased-substring condition of the
specification. -/
theorem matchesSearch_iff (term : String) (u : TUser) :
    matchesSearch term u = true ↔
      IsSubstr term.toLower u.name.toLower ∨
        IsSubstr term.toLower u.email.toLower := by
  simp [matchesSearch, Bool.or_eq_true, strContains_iff]

/-- The empty search term matches every user. -/
theorem matchesSearch_empty (u : TUser) : matchesSearch "" u = true := by
  have h1 : ("".toLower).data = [] := by
    simp [String.toLower, String.map_eq]
  simp [matchesSearch, strContains, h1, containsL_nil_needle]

/-- Closed form of the progress value: `min (10 * n) 100`. -/
theorem progressAfter_closed (n : Nat) :
    progressAfter n = min (10 * n) 100 := by
  induction n with
  | zero => simp [progressAfter]
  | succ n ih =>
    rw [progressAfter, ih, progressTick]
    split <;> omega

/-! ### Claim theorems -/

set_option maxRecDepth 20000 in
/-- C1: every action method (a method whose body performs a UI operation) and
every assertion method (a method whose body checks state) of BasePage,
LoginPage and DashboardPage returns `this`, enabling fluent chaining; every
method that instead returns a framework handle is an element-accessor getter
or a value-returning utility (a method that neither acts nor asserts). -/
theorem pageObject_chain_spec :
    ∀ m ∈ pageObjectMethods,
      ((m.acts = true ∨ m.asserts = true) → m.ret = Ret.self) ∧
      (m.ret = Ret.handle →
        m.isGetter = true ∨ (m.acts = false ∧ m.asserts = false)) := by
  decide

/-- C1 witness: `clickElement` is a recorded page-object method and, being an
action, returns `this`. -/
theorem pageObject_chain_spec_witness :
    clickElementMethod ∈ pageObjectMethods ∧
      clickElementMethod.ret = Ret.self :=
  ⟨by decide,
   (pageObject_chain_spec clickElementMethod (by decide)).1 (Or.inl rfl)⟩

/-- C2 counterexample: it is not true that no Advanced-page operation writes
component-visible values to persistent browser storage — clicking
save-storage on a state whose input holds "hello" changes the `testValue`
localStorage entry. -/
theorem advanced_no_storage_write_counterexample :
    ¬ (∀ (s : AdvancedState) (e : AdvancedEvent),
        (advancedStep s e).testValueStorage = s.testValueStorage) := by
  intro hall
  have h := hall advancedDemoState AdvancedEvent.clickSaveStorage
  simp [advancedStep, advancedDemoState] at h

/-- C2 amended: the only Advanced-page operations that write persistent
browser storage are the save-storage and clear-storage button clicks — every
other event leaves localStorage unchanged — and what the save button
persists under key "testValue" is the uncontrolled storage input's DOM
value, not any React useState value. -/
theorem advanced_storage_write_scope :
    (∀ (s : AdvancedState) (e : AdvancedEvent),
        (advancedStep s e).testValueStorage = s.testValueStorage ∨
        e = AdvancedEvent.clickSaveStorage ∨
        e = AdvancedEvent.clickClearStorage) ∧
    (∀ s, (advancedStep s AdvancedEvent.clickSaveStorage).testValueStorage =
        some s.storageInput) ∧
    (∀ s, (advancedStep s AdvancedEvent.clickClearStorage).testValueStorage =
        none) := by
  refine ⟨?_, fun s => rfl, fun s => rfl⟩
  intro s e
  cases e with
  | dropEvt files => cases files <;> exact Or.inl rfl
  | fileChangeEvt files => cases files <;> exact Or.inl rfl
  | clickSaveStorage => exact Or.inr (Or.inl rfl)
  | clickClearStorage => exact Or.inr (Or.inr rfl)
  | clickLoadStorage =>
    refine Or.inl ?_
    show (advancedStep s AdvancedEvent.clickLoadStorage).testValueStorage =
      s.testValueStorage
    unfold advancedStep
    cases s.testValueStorage with
    | none => rfl
    | some v =>
      dsimp only
      split <;> rfl
  | _ => exact Or.inl rfl

/-- C3: saving the storage input and then loading restores the input's value
(for a non-empty value with the success toast; for the empty value the load
click reports "No value found in localStorage" and leaves the input
unchanged). -/
theorem advanced_storage_roundtrip (s : AdvancedState) :
    ((advancedStep (advancedStep s AdvancedEvent.clickSaveStorage)
        AdvancedEvent.clickLoadStorage).storageInput = s.storageInput) ∧
    (s.storageInput ≠ "" →
      (advancedStep (advancedStep s AdvancedEvent.clickSaveStorage)
        AdvancedEvent.clickLoadStorage).toast =
        "Value loaded from localStorage") ∧
    (s.storageInput = "" →
      (advancedStep (advancedStep s AdvancedEvent.clickSaveStorage)
        AdvancedEvent.clickLoadStorage).toast =
        "No value found in localStorage") := by
  by_cases hv : s.storageInput = "" <;>
    simp [advancedStep, hv]

/-- C3 witness: the round trip at the concrete input "hello" yields the
loaded toast, and at the empty input the not-found toast. -/
theorem advanced_storage_roundtrip_witness :
    ((advancedStep (advancedStep advancedDemoState
        AdvancedEvent.clickSaveStorage)
        AdvancedEvent.clickLoadStorage).toast =
      "Value loaded from localStorage") ∧
    ((advancedStep (advancedStep advancedEmptyState
        AdvancedEvent.clickSaveStorage)
        AdvancedEvent.clickLoadStorage).toast =
      "No value found in localStorage") :=
  ⟨(advanced_storage_roundtrip advancedDemoState).2.1 (by decide),
   (advanced_storage_roundtrip advancedEmptyState).2.2 (by decide)⟩

/-- C4: `mockApiCall shouldSucceed delay` immediately sets the loading flag
and clears the previous response, schedules only a client-side timer of
`delay` milliseconds (no network request, no thrown exception), and the
timer callback stores a response whose success field equals `shouldSucceed`
— with exactly the error "API call failed. Please try again." and no data
when `shouldSucceed` is false — and clears the loading flag; the default
delay is 1000 ms. -/
theorem mockApiCall_spec (shouldSucceed : Bool) (delay idv : Nat)
    (ts : String) (s s' : ApiState) :
    (mockApiCallStart s).isLoading = true ∧
    (mockApiCallStart s).response = none ∧
    ApiEffect.scheduleTimeout delay ∈ mockApiCallEffects shouldSucceed delay ∧
    ApiEffect.networkRequest ∉ mockApiCallEffects shouldSucceed delay ∧
    ApiEffect.throwException ∉ mockApiCallEffects shouldSucceed delay ∧
    (mockApiCallTimeout shouldSucceed idv ts s').isLoading = false ∧
    (mockApiCallTimeout shouldSucceed idv ts s').response =
      some { success := shouldSucceed,
             data := if shouldSucceed then
                 some { id := idv, message := "API call successful!",
                        timestamp := ts }
               else none,
             error := if shouldSucceed then none
               else some "API call failed. Please try again." } ∧
    mockApiCallDefaultDelay = 1000 := by
  cases shouldSucceed <;>
    simp [mockApiCallStart, mockApiCallEffects, mockApiCallTimeout,
      mockApiCallDefaultDelay]

/-- C5: a user is displayed by the Tables page exactly when the lowercased
search term occurs as a substring of the lowercased name or the lowercased
email; the number of displayed users never exceeds the total, and the empty
search term displays all users (up to the display order). -/
theorem tables_filter_spec (term : String) (users : List TUser)
    (sortBy : Option SortKey) (sortOrder : SortOrder) :
    (∀ u, u ∈ filteredUsers term users sortBy sortOrder ↔
        u ∈ users ∧
          (IsSubstr term.toLower u.name.toLower ∨
            IsSubstr term.toLower u.email.toLower)) ∧
    (filteredUsers term users sortBy sortOrder).length ≤ users.length ∧
    (filteredUsers "" users sortBy sortOrder).Perm users := by
  have hperm : ∀ t : String,
      (filteredUsers t users sortBy sortOrder).Perm
        (users.filter (matchesSearch t)) :=
    fun t => List.perm_insertionSort _ _
  refine ⟨?_, ?_, ?_⟩
  · intro u
    rw [(hperm term).mem_iff, List.mem_filter, matchesSearch_iff]
  · calc (filteredUsers term users sortBy sortOrder).length
        = (users.filter (matchesSearch term)).length := (hperm term).length_eq
      _ ≤ users.length := List.length_filter_le _ _
  · have hfilter : users.filter (matchesSearch "") = users :=
      List.filter_eq_self.mpr fun u _ => matchesSearch_empty u
    simpa [hfilter] using hperm ""

/-- C6: after `startProgress` the progress value starts at 0, advances by
exactly 10 on each 500 ms tick, always lies in the multiples of 10 up to
100, never exceeds 100, and once it reaches 100 it stays 100. -/
theorem startProgress_invariants :
    progressAfter 0 = 0 ∧
    progressIntervalMs = 500 ∧
    (∀ n, progressAfter n ≤ 100) ∧
    (∀ n, ∃ k, k ≤ 10 ∧ progressAfter n = 10 * k) ∧
    (∀ n, progressAfter n < 100 →
      progressAfter (n + 1) = progressAfter n + 10) ∧
    (∀ m n, m ≤ n → progressAfter m = 100 → progressAfter n = 100) := by
  refine ⟨rfl, rfl, ?_, ?_, ?_, ?_⟩
  · intro n
    rw [progressAfter_closed]
    omega
  · intro n
    refine ⟨min n 10, by omega, ?_⟩
    rw [progressAfter_closed]
    omega
  · intro n h
    rw [progressAfter_closed] at h ⊢
    rw [progressAfter_closed]
    omega
  · intro m n hmn h100
    rw [progressAfter_closed] at h100 ⊢
    omega

/-- C6 witness: concrete instances — from 40 the next tick gives 50, and
from tick 10 (value 100) the value stays 100 at tick 12. -/
theorem startProgress_invariants_witness :
    progressAfter 4 < 100 ∧ progressAfter 5 = progressAfter 4 + 10 ∧
    progressAfter 10 = 100 ∧ progressAfter 12 = 100 :=
  ⟨by decide, startProgress_invariants.2.2.2.2.1 4 (by decide), by decide,
   startProgress_invariants.2.2.2.2.2 10 12 (by decide) (by decide)⟩

/-- C7: `handleLoadContent` immediately sets the loading flag and clears the
loaded content, schedules a fixed 2000 ms timeout (its only input-independent
delay), and the timeout callback sets the content to
"Content loaded successfully!" and clears the loading flag. -/
theorem handleLoadContent_spec (s s' : DynamicState) :
    (handleLoadContentStart s).isLoading = true ∧
    (handleLoadContentStart s).loadedContent = "" ∧
    handleLoadContentEffects =
      [DynEffect.setLoadingFlag true, DynEffect.setContentText "",
       DynEffect.scheduleTimeout 2000] ∧
    loadContentDelayMs = 2000 ∧
    (handleLoadContentTimeout s').loadedContent =
      "Content loaded successfully!" ∧
    (handleLoadContentTimeout s').isLoading = false :=
  ⟨rfl, rfl, rfl, rfl, rfl, rfl⟩

/-- C8 counterexample: the Complex Workflows test of the advanced spec reads
and writes localStorage yet is preceded by no explicit clear (neither the
root beforeEach, nor its block's beforeEach, nor its own body before the
first storage access contains `clearLocalStorage`). -/
theorem advancedSpec_storage_clear_counterexample :
    testTouchesLS complexWorkflowStorageTest = true ∧
    ∃ b ∈ advancedSpec.blocks,
      complexWorkflowStorageTest ∈ b.tests ∧
        precededByClear advancedSpec b complexWorkflowStorageTest = false := by
  decide

/-- C8 amended: every test of the Browser Storage (localStorage) describe
block is preceded by an explicit clear through that block's beforeEach, but
the storage-touching tests outside that block — in the Complex Workflows and
Edge Cases blocks — run without a preceding clear. -/
theorem advancedSpec_storage_clear_amended :
    browserStorageBlock ∈ advancedSpec.blocks ∧
    browserStorageBlock.tests.all
      (fun t => precededByClear advancedSpec browserStorageBlock t) = true ∧
    advancedSpec.blocks.all (fun b => b.tests.all (fun t =>
        !(testTouchesLS t) || precededByClear advancedSpec b t ||
          (b.dname == "Complex Workflows" || b.dname == "Edge Cases"))) =
      true ∧
    testTouchesLS specialCharactersStorageTest = true ∧
    ∃ b ∈ advancedSpec.blocks,
      specialCharactersStorageTest ∈ b.tests ∧
        precededByClear advancedSpec b specialCharactersStorageTest = false := by
  decide

/-- C9: the page-object hierarchy is one level deep — every BasePage
declaration extends nothing, every extends clause in the repository targets
BasePage directly (so no class extends a page-object subclass), and
LoginPage and DashboardPage extend BasePage. -/
theorem pageObject_hierarchy_spec :
    (∀ c ∈ repoClasses, c.cname = "BasePage" → c.parent = none) ∧
    (∀ c ∈ repoClasses,
      c.parent = none ∨ c.parent = some "BasePage") ∧
    (∀ c ∈ repoClasses, ∀ sub ∈ pageObjectSubclasses,
      c.parent ≠ some sub) ∧
    (⟨"cypress/pages/LoginPage.ts", "LoginPage",
        some "BasePage"⟩ : ClassDecl) ∈ repoClasses ∧
    (⟨"cypress/pages/DashboardPage.ts", "DashboardPage",
        some "BasePage"⟩ : ClassDecl) ∈ repoClasses := by
  decide

/-- C9 witness: the LoginPage declaration of cypress/pages extends BasePage
directly. -/
theorem pageObject_hierarchy_spec_witness :
    (⟨"cypress/pages/LoginPage.ts", "LoginPage",
        some "BasePage"⟩ : ClassDecl).parent = none ∨
    (⟨"cypress/pages/LoginPage.ts", "LoginPage",
        some "BasePage"⟩ : ClassDecl).parent = some "BasePage" :=
  pageObject_hierarchy_spec.2.1
    ⟨"cypress/pages/LoginPage.ts", "LoginPage", some "BasePage"⟩ (by decide)

/-- C10: the Cypress configuration declares base URL http://localhost:8080,
command/request/response timeouts of 10000 ms each, and a 1280 by 720
viewport. -/
theorem cypressConfig_spec :
    cypressConfig.baseUrl = "http://localhost:8080" ∧
    cypressConfig.defaultCommandTimeout = 10000 ∧
    cypressConfig.requestTimeout = 10000 ∧
    cypressConfig.responseTimeout = 10000 ∧
    cypressConfig.viewportWidth = 1280 ∧
    cypressConfig.viewportHeight = 720 :=
  ⟨rfl, rfl, rfl, rfl, rfl, rfl⟩
